import Mathlib

/-!
# Verification of the Spare Room styling-assistant extension

Shallow embedding of the browser-extension code of the repository
(background service worker, content script, popup, sidebar) together with
proofs settling the specification claims about it.

Conventions of the embedding:
* JavaScript strings are Lean `String` (the cleaned-HTML size claim uses
  `List Char`, matching `substring` by `List.take`).
* JavaScript `null`/`undefined` object fields are `Option`.
* JavaScript string truthiness (`if (s)`) is `jsTruthy`: present and
  non-empty.
* The mutable module-level binding `currentAnalysis` of background.js is
  threaded explicitly: each operation takes the previous value of the
  binding and returns the new one.
* The single awaited `fetch` of `analyzeProduct` is abstracted by a
  `FetchOutcome` parameter describing what the backend call produced.
-/

namespace SpareRoom

/-- JavaScript truthiness of an optional string field: `null`/`undefined`
and the empty string are falsy. -/
def jsTruthy : Option String → Bool
  | none => false
  | some s => !s.isEmpty

/-- JavaScript `o || d` for an optional string with a string default. -/
def jsOrString (o : Option String) (d : String) : String :=
  match o with
  | none => d
  | some s => if s.isEmpty then d else s

/-! ## Data model of background.js (src/extension/background.js) -/

/-- The `data` object passed to `analyzeProduct` by the popup
(`chrome.runtime.sendMessage({action: 'analyzeProduct', data: {...}})`). -/
structure RequestData where
  username : String
  geminiApiKey : String
  pageUrl : String
  pageTitle : String
  htmlContent : String
  screenshotBase64 : String
deriving DecidableEq, Repr

/-- The four named try-on image slots of the backend result
(`result.generated_images`). -/
structure GenImages where
  front : Option String
  left : Option String
  right : Option String
  back : Option String
deriving DecidableEq, Repr

/-- The backend JSON result, restricted to the fields the verified
properties read (`generated_images` and the legacy
`generated_image_base64`). -/
structure BackendResult where
  generated_images : Option GenImages
  generated_image_base64 : Option String
deriving DecidableEq, Repr

/-- The `currentAnalysis` object written by `analyzeProduct`
(its shape across the `loading`/`success`/`error` assignments). -/
structure Analysis where
  status : String
  startTime : Nat
  endTime : Option Nat
  pageUrl : String
  pageTitle : String
  result : Option BackendResult
  error : Option String
deriving DecidableEq, Repr

/-- Outcome of the awaited `fetch(BACKEND_URL + '/analyze-and-style')`. -/
inductive FetchOutcome where
  | ok (result : BackendResult)
  | httpError (status : Nat) (body : String)
  | networkError (msg : String)

/-- The `loading` analysis object written first by `analyzeProduct`
(background.js lines 60-65). -/
def analyzeStep1 (d : RequestData) (t0 : Nat) : Analysis :=
  { status := "loading"
    startTime := t0
    endTime := none
    pageUrl := d.pageUrl
    pageTitle := d.pageTitle
    result := none
    error := none }

/-- The assignment `currentAnalysis = {status: 'loading', ...}`: the new
value of the module-level binding.  The previous value of the binding is
overwritten, whatever it was. -/
def startAnalysisState (d : RequestData) (t0 : Nat) (_prev : Option Analysis) :
    Option Analysis :=
  some (analyzeStep1 d t0)

/-- The second analysis object written by `analyzeProduct`: the `success`
assignment (lines 94-101) when the fetch returned ok JSON, the `error`
assignment (lines 112-119) otherwise.  `g` is the value of
`currentAnalysis` at that moment, read for `startTime`. -/
def analyzeStep2 (d : RequestData) (t1 : Nat) (f : FetchOutcome) (g : Analysis) :
    Analysis :=
  match f with
  | FetchOutcome.ok r =>
      { status := "success", startTime := g.startTime, endTime := some t1
        pageUrl := d.pageUrl, pageTitle := d.pageTitle
        result := some r, error := none }
  | FetchOutcome.httpError code body =>
      { status := "error", startTime := g.startTime, endTime := some t1
        pageUrl := d.pageUrl, pageTitle := d.pageTitle
        result := none
        error := some ("Server error: " ++ toString code ++ " - " ++ body) }
  | FetchOutcome.networkError m =>
      { status := "error", startTime := g.startTime, endTime := some t1
        pageUrl := d.pageUrl, pageTitle := d.pageTitle
        result := none, error := some m }

/-- Result of one sequential `analyzeProduct` run: the final value of the
`currentAnalysis` binding, the analyses broadcast to the sidebar (in
order), and the value returned / error thrown. -/
structure RunResult where
  state : Option Analysis
  broadcasts : List Analysis
  ret : Except String BackendResult

/-- One uninterrupted `analyzeProduct(data)` run (background.js lines
58-126): write and broadcast the loading analysis, await the fetch, then
write and broadcast the success or error analysis.  `t0`/`t1` are the two
`Date.now()` readings and `_prev` the value of `currentAnalysis` on
entry (overwritten by the first assignment). -/
def analyzeRun (d : RequestData) (t0 t1 : Nat) (f : FetchOutcome)
    (_prev : Option Analysis) : RunResult :=
  let a1 := analyzeStep1 d t0
  let a2 := analyzeStep2 d t1 f a1
  { state := some a2
    broadcasts := [a1, a2]
    ret :=
      match f with
      | FetchOutcome.ok r => Except.ok r
      | FetchOutcome.httpError code body =>
          Except.error ("Server error: " ++ toString code ++ " - " ++ body)
      | FetchOutcome.networkError m => Except.error m }

/-- The `getAnalysisStatus` message handler (background.js lines 29-30):
`return { analysis: currentAnalysis }` — it answers with the current value
of the shared binding, whichever request's run wrote it last. -/
def getAnalysisStatus (currentAnalysis : Option Analysis) : Option Analysis :=
  currentAnalysis

/-- The JSON body of the backend request built by `analyzeProduct`
(background.js lines 76-83), as its ordered key/value pairs. -/
def analyzeBodyPairs (d : RequestData) : List (String × String) :=
  [("username", d.username),
   ("gemini_api_key", d.geminiApiKey),
   ("page_url", d.pageUrl),
   ("page_title", d.pageTitle),
   ("html_content", d.htmlContent),
   ("screenshot_base64", d.screenshotBase64)]

/-! ## The older background service worker kept in the repository
(src/unnamed/part_002) -/

/-- The `data` object available to the older popup/background pair: it
carries no username and no API key. -/
structure OldRequestData where
  pageUrl : String
  pageTitle : String
  htmlContent : String
  screenshotBase64 : String
deriving DecidableEq, Repr

/-- The JSON body built by the older `analyzeProduct`
(src/unnamed/part_002 lines 82-88): the user identifier is the hardcoded
string `demo_user` and no credential field is present. -/
def analyzeBodyPairsOld (d : OldRequestData) : List (String × String) :=
  [("user_id", "demo_user"),
   ("page_url", d.pageUrl),
   ("page_title", d.pageTitle),
   ("html_content", d.htmlContent),
   ("screenshot_base64", d.screenshotBase64)]

/-! ## Example fixtures used by the concrete counterexamples -/

/-- A concrete request from caller alice. -/
def exampleReqA : RequestData :=
  { username := "alice", geminiApiKey := "keyA"
    pageUrl := "https://shop.example/a", pageTitle := "Jacket A"
    htmlContent := "<html>a</html>", screenshotBase64 := "imgA" }

/-- A concrete request from a second, concurrent caller bob. -/
def exampleReqB : RequestData :=
  { username := "bob", geminiApiKey := "keyB"
    pageUrl := "https://shop.example/b", pageTitle := "Sneaker B"
    htmlContent := "<html>b</html>", screenshotBase64 := "imgB" }

/-- A backend result with no generated image in any slot. -/
def emptyResult : BackendResult :=
  { generated_images := none, generated_image_base64 := none }

/-! ## Content script: HTML cleaning size limit
(the content script bundled with background.js, function `getCleanedHtml`) -/

/-- `const maxLength = 100000` of `getCleanedHtml`. -/
def maxLength : Nat := 100000

/-- `getCleanedHtml` after the DOM cleaning: `html` is the serialized
cleaned document and `mainContent` the value `findMainContent()` would
return (`none` for `null`).  Characters model JavaScript string elements;
`substring(0, maxLength)` is `List.take maxLength`. -/
def getCleanedHtml (html : List Char) (mainContent : Option (List Char)) :
    List Char :=
  if html.length > maxLength then
    match mainContent with
    | some mc =>
        if !mc.isEmpty && decide (mc.length < maxLength) then mc
        else html.take maxLength
    | none => html.take maxLength
  else
    html

/-! ## Popup with setup screen (the popup bundled with background.js):
credential storage and the styling request -/

/-- The `chrome.storage.local` keys the popup uses. -/
structure StorageState where
  username : Option String
  geminiApiKey : Option String
deriving DecidableEq, Repr

/-- JavaScript `String.prototype.trim`: strip whitespace from both
ends. -/
def jsTrim (s : String) : String :=
  ⟨(s.data.dropWhile Char.isWhitespace).reverse.dropWhile
      Char.isWhitespace |>.reverse⟩

/-- The save-setup click handler: trim the two inputs, reject an empty
username or key with an error message, validate the username remotely
(`validateOk` is whether `user_info.json` was found), and on success
persist both values with `chrome.storage.local.set({username,
geminiApiKey})`.  Returns the new storage state and the setup error
message, if any. -/
def saveSetupClick (u k : String) (validateOk : Bool) (st : StorageState) :
    StorageState × Option String :=
  let username := jsTrim u
  let apiKey := jsTrim k
  if username.isEmpty then
    (st, some "Please enter your username.")
  else if apiKey.isEmpty then
    (st, some "Please enter your Gemini API key.")
  else if validateOk then
    ({ username := some username, geminiApiKey := some apiKey }, none)
  else
    (st, some "Username not found. Please check your username and try again.")

/-- The page data gathered before the analyze message is sent. -/
structure PageCapture where
  url : String
  title : String
  html : String
  screenshot : String
deriving DecidableEq, Repr

/-- The style-button click handler, reduced to how it builds the
`analyzeProduct` request data: it reads `username` and `geminiApiKey`
back from `chrome.storage.local` and, when both are present, sends them
along with the captured page; otherwise it returns to the setup screen
(`none`). -/
def styleClick (st : StorageState) (cap : PageCapture) : Option RequestData :=
  if jsTruthy st.username && jsTruthy st.geminiApiKey then
    some
      { username := st.username.getD ""
        geminiApiKey := st.geminiApiKey.getD ""
        pageUrl := cap.url
        pageTitle := cap.title
        htmlContent := cap.html
        screenshotBase64 := cap.screenshot }
  else
    none

/-! ## Sidebar (src/extension/sidebar.js) -/

/-- `const angleKeys = ['front', 'left', 'right', 'back']`. -/
def angleKeys : List String := ["front", "left", "right", "back"]

/-- `const angleNames = ['Front', 'Left', 'Right', 'Back']`. -/
def angleNames : List String := ["Front", "Left", "Right", "Back"]

/-- One entry of the `carouselImages` array built by `initCarousel`. -/
structure CarouselImage where
  key : String
  name : String
  data : String
deriving DecidableEq, Repr

/-- `images[key]`: dynamic field access on the generated-images object by
slot name. -/
def slotOf (g : GenImages) (k : String) : Option String :=
  if k = "front" then g.front
  else if k = "left" then g.left
  else if k = "right" then g.right
  else if k = "back" then g.back
  else none

/-- The `carouselImages` array `initCarousel` builds (sidebar.js lines
98-111): walk `angleKeys` in order and push an entry exactly when
`images[key]` is truthy. -/
def initCarouselImages (g : GenImages) : List CarouselImage :=
  (angleKeys.zip angleNames).foldl
    (fun acc p =>
      if jsTruthy (slotOf g p.1) then
        acc ++ [{ key := p.1, name := p.2, data := (slotOf g p.1).getD "" }]
      else acc)
    []

/-- The carousel left-arrow click handler (sidebar.js lines 70-75):
`(currentAngleIndex - 1 + length) % length`, guarded by a non-empty image
list.  JavaScript evaluates `i - 1 + len` as the integer `i + len - 1`,
which is non-negative whenever the guard holds. -/
def carouselLeftClick (len i : Nat) : Nat :=
  if 0 < len then (i + len - 1) % len else i

/-- The carousel right-arrow click handler (sidebar.js lines 77-82):
`(currentAngleIndex + 1) % length`, guarded by a non-empty image list. -/
def carouselRightClick (len i : Nat) : Nat :=
  if 0 < len then (i + 1) % len else i

/-- What the generated-image section of the sidebar displays. -/
inductive ImageDisplay where
  | carousel (imgs : List CarouselImage)
  | placeholder (msg : String)
deriving DecidableEq, Repr

/-- The images object `showSuccessState` settles on (sidebar.js lines
298-305): `result.generated_images || {}`, replaced wholesale by
`{front: result.generated_image_base64}` when the new-format front slot
is not truthy but the old-format field is. -/
def effectiveImages (r : BackendResult) : GenImages :=
  let images := r.generated_images.getD
    { front := none, left := none, right := none, back := none }
  if !jsTruthy images.front && jsTruthy r.generated_image_base64 then
    { front := r.generated_image_base64, left := none, right := none
      back := none }
  else
    images

/-- `const hasAnyImage = images.front || images.left || images.right ||
images.back` (sidebar.js line 308). -/
def hasAnyImage (r : BackendResult) : Bool :=
  let images := effectiveImages r
  jsTruthy images.front || jsTruthy images.left || jsTruthy images.right ||
    jsTruthy images.back

/-- The generated-image section of `showSuccessState` (sidebar.js lines
297-331): show the carousel when some slot is populated, otherwise the
`Image unavailable` placeholder. -/
def successImageDisplay (r : BackendResult) : ImageDisplay :=
  if r.generated_images.isSome || jsTruthy r.generated_image_base64 then
    if hasAnyImage r then
      ImageDisplay.carousel (initCarouselImages (effectiveImages r))
    else
      ImageDisplay.placeholder "Image unavailable"
  else
    ImageDisplay.placeholder "Image unavailable"

/-- Which state container the sidebar shows. -/
inductive UIView where
  | emptyView
  | loadingView (details : String)
  | errorView (msg : String)
  | successView (image : Option ImageDisplay)
deriving DecidableEq, Repr

/-- The loading-details message chosen by `showLoadingState` from the
elapsed time (sidebar.js lines 179-186). -/
def loadingDetailsText (elapsed : Nat) : String :=
  if elapsed < 3000 then "Looking at this piece..."
  else if elapsed < 8000 then "Checking your closet..."
  else "Creating your styled look..."

/-- `updateUI(analysis)` (sidebar.js lines 141-206, folding in
`showLoadingState`, `showErrorState` and the image part of
`showSuccessState`): the view shown, paired with the delay of the
`getAnalysisStatus` request `showLoadingState` schedules
(`setTimeout(..., 2000)` sending `{action: 'getAnalysisStatus'}`), or
`none` when no such request is scheduled. -/
def updateUI (now : Nat) (a : Option Analysis) : UIView × Option Nat :=
  match a with
  | none => (UIView.emptyView, none)
  | some an =>
      if an.status = "loading" then
        (UIView.loadingView (loadingDetailsText (now - an.startTime)), some 2000)
      else if an.status = "success" then
        (UIView.successView (an.result.map successImageDisplay), none)
      else if an.status = "error" then
        (UIView.errorView (jsOrString an.error "An unexpected error occurred"),
          none)
      else
        (UIView.emptyView, none)

/-- The message action the sidebar's DOMContentLoaded handler sends to
the background worker as soon as the panel opens (sidebar.js line 45):
a direct read of the analysis state. -/
def sidebarLoadAction : String := "getAnalysisStatus"

/-! ## getColorCode (sidebar.js lines 355-381) -/

/-- Lowering of one character: ASCII uppercase, plus U+212A (the Kelvin
sign), the only character outside ASCII whose JavaScript lowercase is a
single ASCII letter (`k`).  Every other character is left unchanged; in
particular no other character can lower into the all-ASCII color-table
keys or Object.prototype property names, so lookups agree with
`String.prototype.toLowerCase` on every input. -/
def lowerChar (c : Char) : Char :=
  if 'A' ≤ c && c ≤ 'Z' then Char.ofNat (c.toNat + 32)
  else if c.toNat = 0x212A then 'k'
  else c

/-- Model of `String.prototype.toLowerCase` by `lowerChar` (exact as far
as reaching the ASCII keys read off the `colors` object is concerned). -/
def asciiLower (s : String) : String :=
  ⟨s.data.map lowerChar⟩

/-- The twenty-entry color table of `getColorCode`. -/
def colors : List (String × String) :=
  [("black", "#1a1a1a"), ("white", "#f5f5f5"), ("navy", "#1e3a5f"),
   ("blue", "#3b82f6"), ("red", "#ef4444"), ("green", "#22c55e"),
   ("brown", "#8b4513"), ("beige", "#d4c4a8"), ("gray", "#6b7280"),
   ("grey", "#6b7280"), ("tan", "#d2b48c"), ("cream", "#fffdd0"),
   ("burgundy", "#722f37"), ("olive", "#808000"), ("khaki", "#c3b091"),
   ("denim", "#1560bd"), ("pink", "#ec4899"), ("purple", "#9333ea"),
   ("yellow", "#eab308"), ("orange", "#f97316")]

/-- The property names a plain object literal inherits from
`Object.prototype`, each bound to a truthy non-string value (a function,
or the prototype object itself for `__proto__`), and therefore visible
to a bracket read `colors[key]`. -/
def objectPrototypeProps : List String :=
  ["constructor", "hasOwnProperty", "isPrototypeOf", "propertyIsEnumerable",
   "toLocaleString", "toString", "valueOf", "__defineGetter__",
   "__defineSetter__", "__lookupGetter__", "__lookupSetter__", "__proto__"]

/-- A JavaScript value readable off the `colors` object: one of its own
string properties, or a truthy non-string value inherited from
`Object.prototype` (identified by the property name). -/
inductive JsValue where
  | str (s : String)
  | inherited (name : String)
deriving DecidableEq, Repr

/-- JavaScript truthiness of a `JsValue`: a string is truthy when
non-empty; the inherited function/object values are all truthy. -/
def jsValueTruthy : JsValue → Bool
  | JsValue.str s => !s.isEmpty
  | JsValue.inherited _ => true

/-- Whether a `JsValue` is a string at all. -/
def isStringValue : JsValue → Bool
  | JsValue.str _ => true
  | JsValue.inherited _ => false

/-- The bracket read `colors[key]` including the prototype chain: an own
table entry if the key matches, otherwise the inherited
`Object.prototype` property of that name if there is one, otherwise
`undefined` (`none`). -/
def colorsIndex (key : String) : Option JsValue :=
  match List.lookup key colors with
  | some v => some (JsValue.str v)
  | none =>
      if key ∈ objectPrototypeProps then some (JsValue.inherited key)
      else none

/-- `getColorCode(colorName)`: `return colors[(colorName ||
'').toLowerCase()] || '#9ca3af'`.  `none` models `null`/`undefined`
input; the `||` returns the read property whenever it is truthy — also
when it is an inherited non-string — and the default otherwise. -/
def getColorCode (colorName : Option String) : JsValue :=
  match colorsIndex (asciiLower (colorName.getD "")) with
  | some v => if jsValueTruthy v then v else JsValue.str "#9ca3af"
  | none => JsValue.str "#9ca3af"

/-- A seven-character `#`-prefixed lowercase hex color string. -/
def isHexColor (s : String) : Bool :=
  match s.data with
  | '#' :: rest => rest.length == 6 && rest.all fun c =>
      c.isDigit || ('a' ≤ c && c ≤ 'f')
  | _ => false

/-- A concrete capture for the older request format. -/
def exampleOldCapture : OldRequestData :=
  { pageUrl := "https://shop.example/a", pageTitle := "Jacket A"
    htmlContent := "<html>a</html>", screenshotBase64 := "imgA" }

/-- A concrete page capture for the popup flow. -/
def examplePage : PageCapture :=
  { url := "https://shop.example/a", title := "Jacket A"
    html := "<html>a</html>", screenshot := "imgA" }

/-! ## Theorems -/

/-- Claim C7: for every generated-images object, the carousel built by
`initCarousel` contains exactly the populated slots among front, left,
right, back, in that fixed order, each carrying its own slot's data;
absent or empty slots are skipped, and no placeholder entries appear. -/
theorem tryOn_carousel_exact (g : GenImages) :
    initCarouselImages g =
      ((angleKeys.zip angleNames).filter fun p => jsTruthy (slotOf g p.1)).map
        fun p =>
          { key := p.1, name := p.2, data := (slotOf g p.1).getD "" } := by
  cases h1 : jsTruthy g.front <;> cases h2 : jsTruthy g.left <;>
    cases h3 : jsTruthy g.right <;> cases h4 : jsTruthy g.back <;>
      simp [initCarouselImages, angleKeys, angleNames, slotOf, h1, h2, h3, h4]

/-- Claim C8: the cleaned HTML sent to the backend is at most 100000
characters long; when the full cleaned document exceeds that bound,
either a main-content subtree shorter than the bound is substituted or
the document is truncated to exactly the bound. -/
theorem getCleanedHtml_spec (html : List Char) (mc : Option (List Char)) :
    (getCleanedHtml html mc).length ≤ maxLength ∧
      (html.length > maxLength →
        (∃ s, mc = some s ∧ s.length < maxLength ∧ getCleanedHtml html mc = s)
          ∨ (getCleanedHtml html mc).length = maxLength) := by
  unfold getCleanedHtml
  by_cases h : html.length > maxLength
  · have htake : (html.take maxLength).length = maxLength := by
      rw [List.length_take]; omega
    cases mc with
    | none =>
        simp only [if_pos h]
        exact ⟨le_of_eq htake, fun _ => Or.inr htake⟩
    | some s =>
        simp only [if_pos h]
        cases hs : !s.isEmpty && decide (s.length < maxLength) with
        | true =>
            have hs' := hs
            rw [Bool.and_eq_true] at hs'
            have hlt : s.length < maxLength := of_decide_eq_true hs'.2
            rw [if_pos rfl]
            exact ⟨le_of_lt hlt, fun _ => Or.inl ⟨s, rfl, hlt, rfl⟩⟩
        | false =>
            rw [if_neg Bool.false_ne_true]
            exact ⟨le_of_eq htake, fun _ => Or.inr htake⟩
  · simp only [if_neg h]
    exact ⟨by omega, fun hc => absurd hc h⟩

/-- Claim C8 witness: a 100001-character document with no main-content
subtree is truncated to exactly 100000 characters. -/
theorem getCleanedHtml_spec_witness :
    (List.replicate (maxLength + 1) 'a').length > maxLength ∧
      ((∃ s, (none : Option (List Char)) = some s ∧ s.length < maxLength ∧
          getCleanedHtml (List.replicate (maxLength + 1) 'a') none = s)
        ∨ (getCleanedHtml (List.replicate (maxLength + 1) 'a') none).length =
            maxLength) := by
  have h : (List.replicate (maxLength + 1) 'a').length > maxLength := by
    simp only [List.length_replicate]; omega
  exact ⟨h, (getCleanedHtml_spec (List.replicate (maxLength + 1) 'a') none).2 h⟩

/-- Claim C10: with a non-empty carousel, the left and right arrow
handlers keep the current index inside the bounds of the image list, and
the two handlers are mutually inverse: a left click followed by a right
click (and vice versa) restores the original index. -/
theorem carousel_nav_spec (len i : Nat) (hlen : 0 < len) (hi : i < len) :
    carouselLeftClick len i < len ∧ carouselRightClick len i < len ∧
      carouselRightClick len (carouselLeftClick len i) = i ∧
      carouselLeftClick len (carouselRightClick len i) = i := by
  unfold carouselLeftClick carouselRightClick
  simp only [if_pos hlen]
  refine ⟨Nat.mod_lt _ hlen, Nat.mod_lt _ hlen, ?_, ?_⟩
  · cases i with
    | zero =>
        have h0 : 0 + len - 1 = len - 1 := by omega
        rw [h0, Nat.mod_eq_of_lt (by omega : len - 1 < len),
          Nat.sub_add_cancel hlen, Nat.mod_self]
    | succ j =>
        have h1 : j + 1 + len - 1 = j + len := by omega
        rw [h1, Nat.add_mod_right, Nat.mod_eq_of_lt (by omega : j < len),
          Nat.mod_eq_of_lt hi]
  · by_cases hsucc : i + 1 < len
    · rw [Nat.mod_eq_of_lt hsucc]
      have h1 : i + 1 + len - 1 = i + len := by omega
      rw [h1, Nat.add_mod_right, Nat.mod_eq_of_lt hi]
    · have heq : i + 1 = len := by omega
      rw [heq, Nat.mod_self]
      have h1 : 0 + len - 1 = len - 1 := by omega
      rw [h1, Nat.mod_eq_of_lt (by omega : len - 1 < len)]
      omega

/-- Claim C10 witness: the bound and inverse laws at a four-image
carousel currently showing index 1. -/
theorem carousel_nav_spec_witness :
    0 < 4 ∧ 1 < 4 ∧
      (carouselLeftClick 4 1 < 4 ∧ carouselRightClick 4 1 < 4 ∧
        carouselRightClick 4 (carouselLeftClick 4 1) = 1 ∧
        carouselLeftClick 4 (carouselRightClick 4 1) = 1) :=
  ⟨by decide, by decide, carousel_nav_spec 4 1 (by decide) (by decide)⟩

/-- A successful lookup returns the second component of a table
entry. -/
theorem lookup_some_mem (l : List (String × String)) (k : String) :
    ∀ v, List.lookup k l = some v → ∃ p, p ∈ l ∧ p.2 = v := by
  induction l with
  | nil => intro v h; cases h
  | cons q t ih =>
      intro v h
      obtain ⟨a, b⟩ := q
      cases hk : (k == a) with
      | true =>
          have hb : some b = some v := by simpa [List.lookup, hk] using h
          cases hb
          exact ⟨(a, v), List.mem_cons_self _ _, rfl⟩
      | false =>
          obtain ⟨p, hp, he⟩ := ih v (by simpa [List.lookup, hk] using h)
          exact ⟨p, List.mem_cons_of_mem _ hp, he⟩

/-- Claim C9 counterexample: `getColorCode` does not return a hex color
string (nor the default) for every input: the bracket read walks the
prototype chain, so the lowercased inputs `constructor` and `__proto__`
hit truthy inherited `Object.prototype` values, which `||` passes
through unchanged. -/
theorem getColorCode_counterexample :
    getColorCode (some "constructor") = JsValue.inherited "constructor" ∧
      isStringValue (getColorCode (some "constructor")) = false ∧
      getColorCode (some "constructor") ≠ JsValue.str "#9ca3af" ∧
      getColorCode (some "CONSTRUCTOR") = JsValue.inherited "constructor" ∧
      getColorCode (some "__proto__") = JsValue.inherited "__proto__" := by
  decide

/-- Claim C9 as amended: `getColorCode` never throws, and for every
input returns either a hex color string — the table entry for the twenty
known color names, matched case-insensitively, and the default
`#9ca3af` for `null`/`undefined` and for inputs matching neither the
table nor an inherited property name — or, when the lowercased input
names an inherited `Object.prototype` property, that truthy inherited
non-string value. -/
theorem getColorCode_spec (i : Option String) (s t : String)
    (hst : asciiLower s = asciiLower t) :
    ((∃ v, getColorCode i = JsValue.str v ∧ isHexColor v = true) ∨
        ∃ n, n ∈ objectPrototypeProps ∧
          getColorCode i = JsValue.inherited n) ∧
      getColorCode (some s) = getColorCode (some t) ∧
      getColorCode none = JsValue.str "#9ca3af" ∧
      (∀ hex, List.lookup (asciiLower (i.getD "")) colors = some hex →
        getColorCode i = JsValue.str hex) ∧
      (List.lookup (asciiLower (i.getD "")) colors = none →
        asciiLower (i.getD "") ∉ objectPrototypeProps →
        getColorCode i = JsValue.str "#9ca3af") := by
  refine ⟨?_, ?_, ?_, ?_, ?_⟩
  · unfold getColorCode
    cases hci : colorsIndex (asciiLower (i.getD "")) with
    | none => exact Or.inl ⟨"#9ca3af", rfl, by decide⟩
    | some v =>
        cases v with
        | str w =>
            have hw : ∃ p, p ∈ colors ∧ p.2 = w := by
              unfold colorsIndex at hci
              cases hlk : List.lookup (asciiLower (i.getD "")) colors with
              | some u =>
                  rw [hlk] at hci
                  cases hci
                  exact lookup_some_mem _ _ _ hlk
              | none =>
                  rw [hlk] at hci
                  by_cases hmem :
                      asciiLower (i.getD "") ∈ objectPrototypeProps
                  · rw [if_pos hmem] at hci; cases hci
                  · rw [if_neg hmem] at hci; cases hci
            obtain ⟨p, hp, he⟩ := hw
            have hall := (by decide :
              ∀ p ∈ colors, isHexColor p.2 = true ∧ p.2.isEmpty = false) p hp
            rw [he] at hall
            refine Or.inl ⟨w, ?_, hall.1⟩
            simp [jsValueTruthy, hall.2]
        | inherited n =>
            have hn : n ∈ objectPrototypeProps := by
              unfold colorsIndex at hci
              cases hlk : List.lookup (asciiLower (i.getD "")) colors with
              | some u => rw [hlk] at hci; cases hci
              | none =>
                  rw [hlk] at hci
                  by_cases hmem :
                      asciiLower (i.getD "") ∈ objectPrototypeProps
                  · rw [if_pos hmem] at hci
                    cases hci
                    exact hmem
                  · rw [if_neg hmem] at hci; cases hci
            refine Or.inr ⟨n, hn, ?_⟩
            simp [jsValueTruthy]
  · simp only [getColorCode, Option.getD_some, hst]
  · decide
  · intro hex h
    have hne : hex.isEmpty = false := by
      obtain ⟨p, hp, he⟩ := lookup_some_mem _ _ _ h
      have hall := (by decide :
        ∀ p ∈ colors, isHexColor p.2 = true ∧ p.2.isEmpty = false) p hp
      rw [he] at hall
      exact hall.2
    simp [getColorCode, colorsIndex, h, jsValueTruthy, hne]
  · intro h hmem
    simp [getColorCode, colorsIndex, h, hmem]

/-- Claim C9 witness: the case-insensitivity hypothesis holds for
`Navy`/`NAVY`; the table conjunct maps `NAVY` to the navy hex code and
the default conjunct maps the unknown non-inherited name `turquoise` to
the default. -/
theorem getColorCode_spec_witness :
    asciiLower "Navy" = asciiLower "NAVY" ∧
      List.lookup (asciiLower ((some "NAVY").getD "")) colors =
        some "#1e3a5f" ∧
      getColorCode (some "NAVY") = JsValue.str "#1e3a5f" ∧
      getColorCode (some "turquoise") = JsValue.str "#9ca3af" := by
  refine ⟨by decide, by decide, ?_, ?_⟩
  · exact (getColorCode_spec (some "NAVY") "Navy" "NAVY"
      (by decide)).2.2.2.1 "#1e3a5f" (by decide)
  · exact (getColorCode_spec (some "turquoise") "Navy" "NAVY"
      (by decide)).2.2.2.2 (by decide) (by decide)

/-- Claim C1 counterexample: the status an observer receives from
`getAnalysisStatus` is changed by another request's run.  After alice's
run completes, the observer reads her `success` analysis; as soon as
bob's run performs its first `currentAnalysis` assignment, the same
observer reads bob's `loading` analysis instead. -/
theorem shared_state_counterexample :
    getAnalysisStatus (startAnalysisState exampleReqB 10
        (analyzeRun exampleReqA 1 5 (FetchOutcome.ok emptyResult) none).state)
      ≠ getAnalysisStatus
        (analyzeRun exampleReqA 1 5 (FetchOutcome.ok emptyResult) none).state ∧
      (getAnalysisStatus (startAnalysisState exampleReqB 10
          (analyzeRun exampleReqA 1 5 (FetchOutcome.ok emptyResult)
            none).state)).map Analysis.pageUrl = some "https://shop.example/b" ∧
      (getAnalysisStatus
          (analyzeRun exampleReqA 1 5 (FetchOutcome.ok emptyResult)
            none).state).map Analysis.pageUrl =
        some "https://shop.example/a" := by
  decide

/-- Claim C1 as amended: background.js keeps all pipeline state in the
single process-wide binding `currentAnalysis`; every `analyzeProduct` run
overwrites it regardless of the previous value, and `getAnalysisStatus`
answers every observer with the latest run's analysis. -/
theorem shared_state_latest_write (d : RequestData) (t0 t1 : Nat)
    (f : FetchOutcome) (s s' : Option Analysis) :
    startAnalysisState d t0 s = startAnalysisState d t0 s' ∧
      getAnalysisStatus (startAnalysisState d t0 s) =
        some (analyzeStep1 d t0) ∧
      (analyzeRun d t0 t1 f s).state = (analyzeRun d t0 t1 f s').state ∧
      getAnalysisStatus (analyzeRun d t0 t1 f s).state =
        some (analyzeStep2 d t1 f (analyzeStep1 d t0)) :=
  ⟨rfl, rfl, rfl, rfl⟩

/-- Claim C2 counterexample: a backend result with no generated image in
any slot is still recorded with the terminal `success` status, and the
sidebar then shows the success view with the `Image unavailable`
placeholder instead of a front image. -/
theorem success_without_front_counterexample :
    ((analyzeRun exampleReqA 1 5 (FetchOutcome.ok emptyResult) none).state.map
        Analysis.status) = some "success" ∧
      (effectiveImages emptyResult).front = none ∧
      successImageDisplay emptyResult =
        ImageDisplay.placeholder "Image unavailable" ∧
      (updateUI 20
          (analyzeRun exampleReqA 1 5 (FetchOutcome.ok emptyResult)
            none).state).1 =
        UIView.successView
          (some (ImageDisplay.placeholder "Image unavailable")) := by
  decide

/-- Claim C2 as amended: `analyzeProduct` marks a result with the
terminal `success` status whenever the backend call returns ok JSON,
regardless of which images are present; when no image slot is populated,
the sidebar's success view falls back to the `Image unavailable`
placeholder rather than refusing the success status. -/
theorem success_status_ignores_images (d : RequestData) (t1 : Nat)
    (g : Analysis) (r : BackendResult) :
    (analyzeStep2 d t1 (FetchOutcome.ok r) g).status = "success" ∧
      (analyzeStep2 d t1 (FetchOutcome.ok r) g).result = some r ∧
      (hasAnyImage r = false →
        successImageDisplay r = ImageDisplay.placeholder "Image unavailable") := by
  refine ⟨rfl, rfl, fun h => ?_⟩
  have hn : ¬ (hasAnyImage r = true) := by simp [h]
  unfold successImageDisplay
  by_cases houter :
      (r.generated_images.isSome || jsTruthy r.generated_image_base64) = true
  · rw [if_pos houter, if_neg hn]
  · rw [if_neg houter]

/-- Claim C2 witness: the amended statement applied to an image-free
backend result. -/
theorem success_status_ignores_images_witness :
    hasAnyImage emptyResult = false ∧
      (analyzeStep2 exampleReqA 5 (FetchOutcome.ok emptyResult)
          (analyzeStep1 exampleReqA 1)).status = "success" ∧
      successImageDisplay emptyResult =
        ImageDisplay.placeholder "Image unavailable" := by
  have h := success_status_ignores_images exampleReqA 5
    (analyzeStep1 exampleReqA 1) emptyResult
  exact ⟨by decide, h.1, h.2.2 (by decide)⟩

/-- Claim C3 counterexample: a successful run pushes the transitions
`loading` then `success`; `success` is not drawn from the claimed
vocabulary of `complete`, `partial` and `failed`. -/
theorem status_vocabulary_counterexample :
    ((analyzeRun exampleReqA 1 5 (FetchOutcome.ok emptyResult)
        none).broadcasts.map Analysis.status) = ["loading", "success"] ∧
      ¬ ("success" ∈ (["complete", "partial", "failed"] : List String)) := by
  decide

/-- Claim C3 as amended: every run pushes exactly the transitions
`loading` followed by `success` (ok backend response) or `error`
(HTTP or network failure), and each pushed analysis carries the run's
`startTime` stamp, which is what the sidebar compares to attribute
updates. -/
theorem status_transitions (d : RequestData) (t0 t1 : Nat) (f : FetchOutcome)
    (s : Option Analysis) :
    (analyzeRun d t0 t1 f s).broadcasts.map Analysis.status =
      ["loading",
        match f with
        | FetchOutcome.ok _ => "success"
        | FetchOutcome.httpError _ _ => "error"
        | FetchOutcome.networkError _ => "error"] ∧
      ∀ a ∈ (analyzeRun d t0 t1 f s).broadcasts, a.startTime = t0 := by
  cases f <;> simp [analyzeRun, analyzeStep1, analyzeStep2]

/-- Claim C3 witness: the transition list and the stamp of the loading
broadcast for a concrete successful run. -/
theorem status_transitions_witness :
    (analyzeRun exampleReqA 1 5 (FetchOutcome.ok emptyResult)
        none).broadcasts.map Analysis.status = ["loading", "success"] ∧
      (analyzeStep1 exampleReqA 1).startTime = 1 := by
  have h := status_transitions exampleReqA 1 5 (FetchOutcome.ok emptyResult) none
  exact ⟨h.1, h.2 (analyzeStep1 exampleReqA 1) (by decide)⟩

/-- Claim C4 counterexample: the sidebar reads the analysis state
directly: its load handler sends a `getAnalysisStatus` request, and while
an analysis is in the `loading` state, `updateUI` schedules another
`getAnalysisStatus` request 2000 ms later. -/
theorem observer_polls_counterexample :
    sidebarLoadAction = "getAnalysisStatus" ∧
      (updateUI 100 (some (analyzeStep1 exampleReqA 1))).2 = some 2000 := by
  decide

/-- Claim C4 as amended: besides receiving pushed `analysisUpdate`
messages, the sidebar polls: it requests `getAnalysisStatus` when the
panel opens, and `updateUI` schedules a further `getAnalysisStatus`
request after 2000 ms exactly when the displayed analysis is in the
`loading` state. -/
theorem sidebar_poll_schedule (now : Nat) (a : Analysis) :
    (updateUI now (some a)).2 =
      (if a.status = "loading" then some 2000 else none) ∧
      (updateUI now none).2 = none ∧
      sidebarLoadAction = "getAnalysisStatus" := by
  refine ⟨?_, rfl, rfl⟩
  by_cases h1 : a.status = "loading"
  · simp [updateUI, h1]
  · by_cases h2 : a.status = "success"
    · simp [updateUI, h1, h2]
    · by_cases h3 : a.status = "error"
      · simp [updateUI, h1, h2, h3]
      · simp [updateUI, h1, h2, h3]

/-- Claim C5 counterexample: saving the setup writes the Gemini API key
to `chrome.storage.local`, and a later style-button click reads the
stored key back and sends it with the request. -/
theorem credential_persisted_counterexample :
    (saveSetupClick " alice " "AIzaSyTestKey" true
        { username := none, geminiApiKey := none }).1.geminiApiKey =
      some "AIzaSyTestKey" ∧
      (styleClick (saveSetupClick " alice " "AIzaSyTestKey" true
            { username := none, geminiApiKey := none }).1 examplePage).map
        RequestData.geminiApiKey = some "AIzaSyTestKey" := by
  decide

/-- Claim C5 as amended: the extension persists the caller's credential:
a validated setup stores the trimmed username and Gemini API key in
`chrome.storage.local`, and every later styling request reads the stored
credential back and reuses it. -/
theorem credential_storage_reuse (u k : String) (st : StorageState)
    (cap : PageCapture) (hu : (jsTrim u).isEmpty = false)
    (hk : (jsTrim k).isEmpty = false) :
    (saveSetupClick u k true st).1 =
      { username := some (jsTrim u), geminiApiKey := some (jsTrim k) } ∧
      (styleClick (saveSetupClick u k true st).1 cap).map
        RequestData.geminiApiKey = some (jsTrim k) ∧
      (styleClick (saveSetupClick u k true st).1 cap).map
        RequestData.username = some (jsTrim u) := by
  have h1 : (saveSetupClick u k true st).1 =
      { username := some (jsTrim u), geminiApiKey := some (jsTrim k) } := by
    simp [saveSetupClick, hu, hk]
  refine ⟨h1, ?_, ?_⟩ <;>
    rw [h1] <;> simp [styleClick, jsTruthy, hu, hk]

/-- Claim C5 witness: the amended statement at concrete setup inputs. -/
theorem credential_storage_reuse_witness :
    (jsTrim " alice ").isEmpty = false ∧
      (jsTrim "AIzaSyTestKey").isEmpty = false ∧
      ((saveSetupClick " alice " "AIzaSyTestKey" true
            { username := none, geminiApiKey := none }).1 =
          { username := some (jsTrim " alice ")
            geminiApiKey := some (jsTrim "AIzaSyTestKey") } ∧
        (styleClick (saveSetupClick " alice " "AIzaSyTestKey" true
              { username := none, geminiApiKey := none }).1 examplePage).map
          RequestData.geminiApiKey = some (jsTrim "AIzaSyTestKey") ∧
        (styleClick (saveSetupClick " alice " "AIzaSyTestKey" true
              { username := none, geminiApiKey := none }).1 examplePage).map
          RequestData.username = some (jsTrim " alice ")) :=
  ⟨by decide, by decide,
    credential_storage_reuse " alice " "AIzaSyTestKey"
      { username := none, geminiApiKey := none } examplePage
      (by decide) (by decide)⟩

/-- Claim C6 counterexample: the older background service worker kept in
the repository builds an analysis request with no credential field and a
hardcoded `demo_user` user identifier, instead of the caller-supplied
values. -/
theorem old_request_counterexample :
    List.lookup "gemini_api_key" (analyzeBodyPairsOld exampleOldCapture) =
      none ∧
      List.lookup "username" (analyzeBodyPairsOld exampleOldCapture) = none ∧
      List.lookup "user_id" (analyzeBodyPairsOld exampleOldCapture) =
        some "demo_user" ∧
      (analyzeBodyPairsOld exampleOldCapture).map Prod.fst =
        ["user_id", "page_url", "page_title", "html_content",
          "screenshot_base64"] := by
  decide

/-- Claim C6 as amended: every analysis request built by the current
background service worker carries exactly the six fields — caller
username, caller credential, page URL, page title, HTML content and
screenshot — each taken from the caller-supplied data. -/
theorem request_fields_current (d : RequestData) :
    (analyzeBodyPairs d).map Prod.fst =
      ["username", "gemini_api_key", "page_url", "page_title",
        "html_content", "screenshot_base64"] ∧
      List.lookup "username" (analyzeBodyPairs d) = some d.username ∧
      List.lookup "gemini_api_key" (analyzeBodyPairs d) =
        some d.geminiApiKey ∧
      List.lookup "page_url" (analyzeBodyPairs d) = some d.pageUrl ∧
      List.lookup "page_title" (analyzeBodyPairs d) = some d.pageTitle ∧
      List.lookup "html_content" (analyzeBodyPairs d) = some d.htmlContent ∧
      List.lookup "screenshot_base64" (analyzeBodyPairs d) =
        some d.screenshotBase64 :=
  ⟨rfl, rfl, rfl, rfl, rfl, rfl, rfl⟩

end SpareRoom
